import Mathlib

/-!
Shallow embedding of `generator.py`, the OpenSSL-to-Meson configuration
extraction pipeline.  The script drives OpenSSL's legacy `Configure` across an
(architecture, assembly-mode) matrix and, for each pair, extracts the decoded
configuration database (`unified_info`, `config`, `target`) into a `meson.build`
manifest, materializing generated sources into a per-arch output tree.

External collaborators (perl, make/nmake, git, the filesystem) are not
reimplemented: every external action the script performs is recorded as an
explicit `Effect`, and the decoded configuration database is a parameter.  A
fatal Python exception (missing dict key, missing list element) is modelled by
`Option`: `none` means the run aborts with an exception.

String primitives are implemented by structural recursion over the character
list `String.data` so that every definition evaluates inside the kernel; each
one's doc comment names the Python operation it embeds.
-/

/-- Model of Python `str.split()` boundaries: split a character list at every
whitespace character (groups between separators, possibly empty). -/
def charsSplit (p : Char → Bool) : List Char → List (List Char)
  | [] => [[]]
  | c :: cs =>
      let r := charsSplit p cs
      if p c then [] :: r
      else
        match r with
        | [] => [[c]]
        | g :: gs => (c :: g) :: gs

/-- Model of Python `str.split()` with no argument (used for all the
space-separated flag strings): split on whitespace runs, dropping empties. -/
def pySplit (s : String) : List String :=
  ((charsSplit Char.isWhitespace s.data).map (fun l => String.mk l)).filter
    (fun t => t != "")

/-- Does `p` occur as a prefix of `l`? (Character-list core of Python
`str.startswith`.) -/
def isPrefixList : List Char → List Char → Bool
  | [], _ => true
  | _ :: _, [] => false
  | p :: ps, c :: cs => p == c && isPrefixList ps cs

/-- Model of Python `str.startswith(p)`. -/
def strStartsWith (s p : String) : Bool :=
  isPrefixList p.data s.data

/-- Model of Python `str.endswith(p)`. -/
def strEndsWith (s p : String) : Bool :=
  isPrefixList p.data.reverse s.data.reverse

/-- Model of Python `s[:n]` for a nonnegative `n` (take the first `n`
characters). -/
def strTake (s : String) (n : Nat) : String :=
  String.mk (s.data.take n)

/-- Model of Python `s[n:]` for a nonnegative `n` (drop the first `n`
characters). -/
def strDrop (s : String) (n : Nat) : String :=
  String.mk (s.data.drop n)

/-- Model of Python `s[:-n]` (drop the last `n` characters). -/
def strDropRight (s : String) (n : Nat) : String :=
  String.mk (s.data.take (s.data.length - n))

/-- Model of Python `i.replace('-D', '')` on line 149 of `generator.py`:
remove every (left-to-right, non-overlapping) occurrence of the two-character
substring `-D`. -/
def stripDashD : List Char → List Char
  | '-' :: 'D' :: rest => stripDashD rest
  | c :: rest => c :: stripDashD rest
  | [] => []

/-- String wrapper for `stripDashD`. -/
def pyReplaceDashD (s : String) : String :=
  String.mk (stripDashD s.data)

/-- Join a list of strings with a separator (model of `str.join`). -/
def strIntercalate (sep : String) : List String → String
  | [] => ""
  | [x] => x
  | x :: xs => x ++ sep ++ strIntercalate sep xs

/-- Hexadecimal digit character, for Python `repr` escapes. -/
def hexDigit (n : Nat) : Char :=
  if n < 10 then Char.ofNat (48 + n) else Char.ofNat (87 + n)

/-- Escape one character the way Python `repr` does inside a string literal
quoted with `q`: backslash and the quote character are backslash-escaped,
newline / carriage return / tab use their mnemonic escapes, other control
characters use a two-digit hex escape, anything else is kept as-is. -/
def pyEscapeChar (q c : Char) : List Char :=
  if c == Char.ofNat 92 then [Char.ofNat 92, Char.ofNat 92]
  else if c == q then [Char.ofNat 92, c]
  else if c == Char.ofNat 10 then [Char.ofNat 92, 'n']
  else if c == Char.ofNat 13 then [Char.ofNat 92, 'r']
  else if c == Char.ofNat 9 then [Char.ofNat 92, 't']
  else if c.toNat < 32 || c.toNat == 127 then
    [Char.ofNat 92, 'x', hexDigit (c.toNat / 16), hexDigit (c.toNat % 16)]
  else [c]

/-- Model of Python `f'{i!r}'` for the strings at hand: quote with a single
quote unless the string contains one (and no double quote), escaping as
`pyEscapeChar` does. -/
def pyRepr (s : String) : String :=
  let sq := Char.ofNat 39
  let dq := Char.ofNat 34
  let q := if s.data.contains sq && !(s.data.contains dq) then dq else sq
  String.mk (q :: ((s.data.map (pyEscapeChar q)).flatten ++ [q]))

/-- Model of `pathlib.Path(i).as_posix()` for the relative source paths this
script handles, on the Windows host the `VC-WIN` branch runs on (the script's
own comment notes Windows archs can only be generated on Windows): both `/` and
`\x5c` are separators, repeated separators and `.` components are dropped, and
the result is re-joined with `/`. -/
def posixPath (s : String) : String :=
  let isSep := fun c => c == '/' || c == Char.ofNat 92
  let parts := ((charsSplit isSep s.data).map (fun l => String.mk l)).filter
    (fun p => p != "" && p != ".")
  let lead :=
    match s.data with
    | c :: _ => if isSep c then "/" else ""
    | [] => ""
  let body := strIntercalate "/" parts
  if lead ++ body == "" then "." else lead ++ body

/-- Model of `pathlib.Path(src).parent` (line 140 of `generator.py`) for the
same class of paths: drop the final component; a single-component relative path
has parent `.`. -/
def pathParent (s : String) : String :=
  let isSep := fun c => c == '/' || c == Char.ofNat 92
  let parts := ((charsSplit isSep s.data).map (fun l => String.mk l)).filter
    (fun p => p != "" && p != ".")
  let lead :=
    match s.data with
    | c :: _ => if isSep c then "/" else ""
    | [] => ""
  match parts.dropLast with
  | [] => if lead == "/" then "/" else "."
  | ps => lead ++ strIntercalate "/" ps

/-- Model of `Path(a) / b` for the destinations built on line 140: pathlib
drops a `.` component when joining. -/
def pathJoin (a b : String) : String :=
  if b == "." then a else a ++ "/" ++ b

/-- A value of the decoded JSON configuration database: the keys this script
consults hold either a single string or a list of strings. -/
inductive Val where
  | str : String → Val
  | strs : List String → Val
deriving DecidableEq

/-- A decoded JSON object (Python dict with string keys); keys are unique, and
`dget` returns the first match, modelling dict lookup. -/
abbrev Dict := List (String × Val)

/-- Dictionary lookup: `d[k]` succeeds iff `dget` is `some`; Python raises
`KeyError` (fatal) on `none`. -/
def dget {α : Type} : List (String × α) → String → Option α
  | [], _ => none
  | (k, v) :: rest, key => if k == key then some v else dget rest key

/-- Fetch a key that the script uses as a string (`.split()` etc.); a missing
key or a non-string value is a fatal Python error, modelled as `none`. -/
def getStr (d : Dict) (k : String) : Option String :=
  match dget d k with
  | some (Val.str s) => some s
  | _ => none

/-- Fetch a key that the script iterates over as a list; a missing key or a
non-list value is a fatal Python error, modelled as `none`. -/
def getStrs (d : Dict) (k : String) : Option (List String) :=
  match dget d k with
  | some (Val.strs l) => some l
  | _ => none

/-- The decoded configuration database: the three structures `configdata`
returns on lines 112-114 of `generator.py`.  `unified_sources` is
`unified_info['sources']` (object/target name to list of strings);
`unified_generate` is the key set of `unified_info['generate']` (only
membership is consulted, line 127). -/
structure ConfigDB where
  unified_sources : List (String × List String)
  unified_generate : List String
  config : Dict
  target : Dict

/-- Resolve each object of a target to its backing source, `lines 117-120`:
`sources.append(unified_info['sources'][obj][0])`; a missing object entry or an
empty entry is a fatal Python error (`KeyError` / `IndexError`). -/
def resolveObjs (u : List (String × List String)) : List String → Option (List String)
  | [] => some []
  | obj :: rest =>
      match (dget u obj).bind List.head?, resolveObjs u rest with
      | some s, some tail => some (s :: tail)
      | _, _ => none

/-- Model of `get_sources(target)` (lines 116-120 of `generator.py`): one level
of object-to-source indirection through `unified_info['sources']`. -/
def get_sources (u : List (String × List String)) (t : String) : Option (List String) :=
  match dget u t with
  | none => none
  | some objs => resolveObjs u objs

/-- The `libcrypto` source partition loop (lines 124-132 of `generator.py`):
sources listed under `unified_info['generate']` go to the generated list, with
`.s`/`.S` rewritten to `.asm` on Windows-family archs; the rest stay static.
Returns `(libcrypto_srcs, generated_srcs)`. -/
def classifySrcs (is_win : Bool) (generate : List String) : List String → List String × List String
  | [] => ([], [])
  | src :: rest =>
      let r := classifySrcs is_win generate rest
      if generate.contains src then
        let s2 :=
          if is_win && (strEndsWith src ".s" || strEndsWith src ".S") then
            strDropRight src 2 ++ ".asm"
          else src
        (r.1, s2 :: r.2)
      else (src :: r.1, r.2)

/-- The fixed configure options, line 41 of `generator.py`. -/
def COPTS : List String := ["no-comp", "no-shared", "no-afalgeng", "enable-ssl-trace"]

/-- The assembly-capable architecture list, lines 11-35 of `generator.py`. -/
def ASM_ARCHS : List String :=
  ["BSD-x86", "BSD-x86_64", "darwin64-x86_64-cc", "darwin-i386-cc",
   "darwin64-arm64-cc", "linux-aarch64", "linux-armv4", "linux-elf",
   "linux-x32", "linux-x86_64", "linux-ppc", "linux-ppc64", "linux-ppc64le",
   "linux32-s390x", "linux64-s390x", "linux64-mips64", "solaris-x86-gcc",
   "solaris64-x86_64-gcc", "VC-WIN64A", "VC-WIN32"]

/-- The no-assembly architecture list, lines 37-39 of `generator.py`. -/
def NO_ASM_ARCHS : List String := ["VC-WIN64-ARM"]

/-- The build driver chosen on line 81: `nmake` for Windows-family archs
(identifier starting with `VC-WIN`), `make` otherwise. -/
def makeTool (arch : String) : String :=
  if strStartsWith arch "VC-WIN" then "nmake" else "make"

/-- Assemble the defines list, lines 148-150: global defines, the target's
`lib_cppflags` split and with every `-D` occurrence removed, global
`lib_defines`, target defines, in that order. -/
def mkDefines (config target : Dict) : Option (List String) :=
  match getStr target "lib_cppflags", getStrs config "defines",
        getStrs config "lib_defines", getStrs target "defines" with
  | some lcpp, some cdef, some ldef, some tdef =>
      some (cdef ++ (pySplit lcpp).map pyReplaceDashD ++ ldef ++ tdef)
  | _, _, _, _ => none

/-- Assemble the cflags list, lines 152-159: nothing on Windows-family archs;
otherwise the two global flag lists (each entry split on spaces) followed by
the two split target flag strings. -/
def mkCflags (is_win : Bool) (config target : Dict) : Option (List String) :=
  if is_win then some [] else
  match getStrs config "cflags", getStrs config "CFLAGS",
        getStr target "cflags", getStr target "CFLAGS" with
  | some a, some b, some c, some d =>
      some ((a.map pySplit).flatten ++ (b.map pySplit).flatten ++ pySplit c ++ pySplit d)
  | _, _, _, _ => none

/-- One linker library name, lines 164-167: drop a leading `-l`, then, when the
name ends in `.lib`, keep `lib[:4]` - the first four characters. -/
def libName (lib : String) : String :=
  let l1 := if strStartsWith lib "-l" then strDrop lib 2 else lib
  if strEndsWith l1 ".lib" then strTake l1 4 else l1

/-- Assemble the libs list, lines 161-168: the guarded `'ex_libs' in target`
check makes a missing key yield an empty list instead of an error; a present
key is split on spaces and each entry passed through `libName`. -/
def mkLibs (target : Dict) : Option (List String) :=
  match dget target "ex_libs" with
  | none => some []
  | some (Val.str s) => some ((pySplit s).map libName)
  | some (Val.strs _) => none

/-- The list-processing core of `join_strings` (lines 170-173): convert to
POSIX paths when `paths` is set on a Windows-family arch, then drop the entries
listed in `exclude` (Python `i not in exclude`). -/
def processStrings (is_win : Bool) (exclude : List String) (paths : Bool)
    (strv : List String) : List String :=
  let strv2 := if paths && is_win then strv.map posixPath else strv
  strv2.filter (fun i => decide (i ∉ exclude))

/-- Render a processed list the way `join_strings` returns it: `repr` each
entry and join with comma-newline-indent. -/
def renderList (l : List String) : String :=
  strIntercalate ",\n  " (l.map pyRepr)

/-- Model of `join_strings` (lines 170-173 of `generator.py`). -/
def join_strings (is_win : Bool) (exclude : List String) (paths : Bool)
    (strv : List String) : String :=
  renderList (processStrings is_win exclude paths strv)

/-- The `generated-config/archs/<arch>/<asm>/` prefix added to generated
sources before they are recorded in the manifest (lines 145-146). -/
def genPfx (arch asmv : String) : String :=
  "generated-config/archs/" ++ arch ++ "/" ++ asmv ++ "/"

/-- The arch/mode-scoped output tree root, line 98. -/
def baseDir (arch asmv : String) : String :=
  "generated-config/archs/" ++ arch ++ "/" ++ asmv

/-- The manifest placeholder values of the dictionary `d` (lines 174-183),
with each list kept as the processed entry list (its rendering in the final
text is `renderList`). -/
structure Manifest where
  libcrypto_srcs : List String
  libssl_srcs : List String
  apps_openssl_srcs : List String
  defines : List String
  cflags : List String
  libs : List String
  arch : String
  asm : String
deriving DecidableEq

/-- Build the manifest placeholder dictionary (lines 144-183) from the resolved
pieces: partition libcrypto, add the arch prefix to generated sources, and
apply each placeholder's `join_strings` processing with the source's exact
`exclude` sets and `paths` flags. -/
def buildManifest (generate : List String) (arch asmv : String)
    (ssl la ao lc d c l : List String) : Manifest :=
  let is_win := strStartsWith arch "VC-WIN"
  let p := classifySrcs is_win generate lc
  { libcrypto_srcs := processStrings is_win [] true (p.1 ++ p.2.map (fun src => genPfx arch asmv ++ src))
    libssl_srcs := processStrings is_win [] true ssl
    apps_openssl_srcs := processStrings is_win [] true (ao ++ la)
    defines := processStrings is_win ["NDEBUG"] false d
    cflags := processStrings is_win ["-Wall", "-O3", "-pthread"] false c
    libs := processStrings is_win ["-pthread"] false l
    arch := arch
    asm := asmv }

/-- The manifest-extraction pipeline for one (arch, mode) pair, lines 116-183:
resolve the four target source lists (note `os.path.join('apps', ...)` on the
POSIX-separator hosts this models), assemble defines/cflags/libs, and build the
placeholder dictionary.  Any fatal Python error along the way is `none`. -/
def mkManifest (db : ConfigDB) (arch asmv : String) : Option Manifest :=
  match get_sources db.unified_sources "libssl",
        get_sources db.unified_sources "apps/libapps.a",
        get_sources db.unified_sources "apps/openssl",
        get_sources db.unified_sources "libcrypto",
        mkDefines db.config db.target,
        mkCflags (strStartsWith arch "VC-WIN") db.config db.target,
        mkLibs db.target with
  | some ssl, some la, some ao, some lc, some d, some c, some l =>
      some (buildManifest db.unified_generate arch asmv ssl la ao lc d c l)
  | _, _, _, _, _, _, _ => none

/-- Render the `MESON_BUILD_TMPL` template (lines 43-75) with the placeholder
values, exactly as `MESON_BUILD_TMPL.format(**d)` does on line 185. -/
def renderManifest (m : Manifest) : String :=
  let q := String.mk [Char.ofNat 39]
  let inc := fun (suffix : String) =>
    q ++ "generated-config/archs/" ++ m.arch ++ "/" ++ m.asm ++ suffix ++ q
  "# OpenSSL library\nlibcrypto_sources = [\n  " ++ renderList m.libcrypto_srcs ++ "\n]\n\n" ++
  "libssl_sources = [\n  " ++ renderList m.libssl_srcs ++ "\n]\n\n" ++
  "openssl_defines = [\n  " ++ renderList m.defines ++ "\n]\n\n" ++
  "openssl_cflags = [\n  " ++ renderList m.cflags ++ "\n]\n\n" ++
  "openssl_libraries = [\n  " ++ renderList m.libs ++ "\n]\n\n" ++
  "openssl_include_directories = [\n  " ++ inc "" ++ ",\n  " ++ inc "/include" ++
  ",\n  " ++ inc "/crypto" ++ ",\n  " ++ inc "/crypto/include/internal" ++ ",\n]\n\n" ++
  "# OpenSSL CLI\nopenssl_cli_sources = [\n  " ++ renderList m.apps_openssl_srcs ++ "\n]"

/-- One observable external action of the script: a synchronous subprocess
invocation, a directory creation, a file copy, or a file write. -/
inductive Effect where
  | run : List String → Effect
  | mkdir : String → Effect
  | copy : String → String → Effect
  | write : String → String → Effect
deriving DecidableEq

/-- The `Configure` command line built on lines 86-91: fixed options, the arch,
and the extra `no-asm` argument in that mode. -/
def configureCmd (arch asmv : String) : List String :=
  ["perl", "Configure"] ++ COPTS ++ [arch] ++ (if asmv == "no-asm" then [asmv] else [])

/-- The configure / header-materializer effects, lines 86-105 (CC/ASM
environment overrides accompany the calls but are not observable here). -/
def setupEffects (mk arch asmv : String) : List Effect :=
  [Effect.run (configureCmd arch asmv),
   Effect.run [mk, "build_generated", "crypto/buildinf.h", "apps/progs.h"],
   Effect.mkdir (baseDir arch asmv ++ "/crypto/include/internal"),
   Effect.mkdir (baseDir arch asmv ++ "/include/openssl"),
   Effect.copy "include/openssl/opensslconf.h" (baseDir arch asmv ++ "/include/openssl"),
   Effect.copy "include/crypto/bn_conf.h" (baseDir arch asmv ++ "/crypto/include/internal"),
   Effect.copy "include/crypto/dso_conf.h" (baseDir arch asmv ++ "/crypto/include/internal"),
   Effect.copy "apps/progs.h" (baseDir arch asmv ++ "/include")]

/-- The generated-source materializer, lines 138-142: for each entry of
`generated_srcs` (in order), one build-driver invocation on the entry's name,
the parent-directory creation, and the copy of that same name into the tree. -/
def materializeEffects (mk base : String) (gsrcs : List String) : List Effect :=
  (gsrcs.map (fun src =>
    [Effect.run [mk, src],
     Effect.mkdir (pathJoin base (pathParent src)),
     Effect.copy src (pathJoin base (pathParent src))])).flatten

/-- The workspace-resetter effects, lines 188-190. -/
def cleanupEffects (mk : String) : List Effect :=
  [Effect.run [mk, "clean"], Effect.run [mk, "distclean"],
   Effect.run ["git", "clean", "-f", "crypto"]]

/-- Model of `gen_arch(arch, asm)` (lines 78-190): `which` is the
`shutil.which` oracle; a missing build driver returns immediately with no
effects (`some []`); otherwise the effect trace is configure/header setup,
generated-source materialization, the manifest write, and cleanup.  `none`
models the script dying on a fatal exception. -/
def gen_arch (which : String → Bool) (db : ConfigDB) (arch asmv : String) :
    Option (List Effect) :=
  if !(which (makeTool arch)) then some [] else
  match get_sources db.unified_sources "libcrypto", mkManifest db arch asmv with
  | some lc, some m =>
      some (setupEffects (makeTool arch) arch asmv
        ++ materializeEffects (makeTool arch) (baseDir arch asmv)
             (classifySrcs (strStartsWith arch "VC-WIN") db.unified_generate lc).2
        ++ [Effect.write (baseDir arch asmv ++ "/meson.build") (renderManifest m)]
        ++ cleanupEffects (makeTool arch))
  | _, _ => none

/-- The driver loops, lines 192-198: every `ASM_ARCHS` entry in the three
modes, then the `NO_ASM_ARCHS` entries in `no-asm` mode. -/
def archModePairs : List (String × String) :=
  (ASM_ARCHS.map (fun a => [(a, "asm"), (a, "asm_avx2"), (a, "no-asm")])).flatten
  ++ NO_ASM_ARCHS.map (fun a => (a, "no-asm"))

/-- The dict/target keys the extraction reads from `config` without a presence
check (`cflags`/`CFLAGS` only on non-Windows archs). -/
def consultedConfigKeys (is_win : Bool) : List String :=
  if is_win then ["defines", "lib_defines"]
  else ["defines", "lib_defines", "cflags", "CFLAGS"]

/-- The keys the extraction reads from `target` without a presence check
(`ex_libs` is absent from this list: line 162 guards it). -/
def consultedTargetKeys (is_win : Bool) : List String :=
  if is_win then ["lib_cppflags", "defines"]
  else ["lib_cppflags", "defines", "cflags", "CFLAGS"]

/-- Modelled from the spec (claim C6's reading of the extraction, not from the
code): strip only a *leading* `-D` flag prefix from a preprocessor flag. -/
def specStripDPfx (s : String) : String :=
  if strStartsWith s "-D" then strDrop s 2 else s

/-- Modelled from the spec (claim C6's reading): the manifest define list as
the claim states it - the four lists concatenated with `lib_cppflags` entries
stripped of a leading `-D` only, then `NDEBUG` entries removed. -/
def specDefines (cdef : List String) (lcpp : String) (ldef tdef : List String) :
    List String :=
  (cdef ++ (pySplit lcpp).map specStripDPfx ++ ldef ++ tdef).filter
    (fun i => i != "NDEBUG")

/-- A small non-Windows configuration database used to evaluate the pipeline at
concrete inputs (shaped like a reduced `configdata` decode). -/
def sampleConfig : Dict :=
  [("defines", Val.strs ["OPENSSL_USE_APPLINK"]),
   ("lib_defines", Val.strs ["OPENSSL_PIC"]),
   ("cflags", Val.strs ["-Wall -O3"]),
   ("CFLAGS", Val.strs ["-O3"])]

/-- Target dict of the sample database. -/
def sampleTarget : Dict :=
  [("lib_cppflags", Val.str "-DOPENSSL_BUILDING -DA-DB"),
   ("defines", Val.strs ["NDEBUG"]),
   ("cflags", Val.str "-pthread -g"),
   ("CFLAGS", Val.str "-O2"),
   ("ex_libs", Val.str "-ldl ws2_32.lib -pthread")]

/-- Unified source graph of the sample database. -/
def sampleSources : List (String × List String) :=
  [("libssl", ["ssl/ssl_lib.o"]),
   ("ssl/ssl_lib.o", ["ssl/ssl_lib.c"]),
   ("apps/libapps.a", ["apps/lib/app_x.o"]),
   ("apps/lib/app_x.o", ["apps/lib/app_x.c"]),
   ("apps/openssl", ["apps/openssl.o"]),
   ("apps/openssl.o", ["apps/openssl.c"]),
   ("libcrypto", ["crypto/aes.o", "crypto/cpuid.o"]),
   ("crypto/aes.o", ["crypto/aes.c"]),
   ("crypto/cpuid.o", ["crypto/x86_64cpuid.s"])]

/-- The sample database. -/
def sampleDB : ConfigDB :=
  { unified_sources := sampleSources
    unified_generate := ["crypto/x86_64cpuid.s"]
    config := sampleConfig
    target := sampleTarget }

/-- The manifest the pipeline produces from `sampleDB` for `linux-x86_64`
in `asm` mode. -/
def mSample : Manifest :=
  { libcrypto_srcs := ["crypto/aes.c",
      "generated-config/archs/linux-x86_64/asm/crypto/x86_64cpuid.s"]
    libssl_srcs := ["ssl/ssl_lib.c"]
    apps_openssl_srcs := ["apps/openssl.c", "apps/lib/app_x.c"]
    defines := ["OPENSSL_USE_APPLINK", "OPENSSL_BUILDING", "AB", "OPENSSL_PIC"]
    cflags := ["-g", "-O2"]
    libs := ["dl", "ws2_"]
    arch := "linux-x86_64"
    asm := "asm" }

/-- Target dict of the sample database without the optional `ex_libs` key. -/
def sampleTargetNoEx : Dict :=
  [("lib_cppflags", Val.str "-DOPENSSL_BUILDING -DA-DB"),
   ("defines", Val.strs ["NDEBUG"]),
   ("cflags", Val.str "-pthread -g"),
   ("CFLAGS", Val.str "-O2")]

/-- Config dict of the sample database without the consulted `cflags` key. -/
def sampleConfigNoCflags : Dict :=
  [("defines", Val.strs ["OPENSSL_USE_APPLINK"]),
   ("lib_defines", Val.strs ["OPENSSL_PIC"]),
   ("CFLAGS", Val.strs ["-O3"])]

/-- The sample database with `ex_libs` absent. -/
def sampleDBNoEx : ConfigDB :=
  { sampleDB with target := sampleTargetNoEx }

/-- The sample database with the `cflags` config key absent. -/
def sampleDBNoCflags : ConfigDB :=
  { sampleDB with config := sampleConfigNoCflags }

/-- The manifest the pipeline produces from `sampleDBNoEx` for `linux-x86_64`
in `asm` mode (same as `mSample` but with an empty libs list). -/
def mSampleNoEx : Manifest :=
  { libcrypto_srcs := ["crypto/aes.c",
      "generated-config/archs/linux-x86_64/asm/crypto/x86_64cpuid.s"]
    libssl_srcs := ["ssl/ssl_lib.c"]
    apps_openssl_srcs := ["apps/openssl.c", "apps/lib/app_x.c"]
    defines := ["OPENSSL_USE_APPLINK", "OPENSSL_BUILDING", "AB", "OPENSSL_PIC"]
    cflags := ["-g", "-O2"]
    libs := []
    arch := "linux-x86_64"
    asm := "asm" }

/-- A small Windows-family configuration database with a generated `.s`
assembly source. -/
def winConfig : Dict :=
  [("defines", Val.strs []), ("lib_defines", Val.strs []),
   ("cflags", Val.strs ["/W3"]), ("CFLAGS", Val.strs [])]

/-- Target dict of the Windows sample database. -/
def winTarget : Dict :=
  [("lib_cppflags", Val.str "-DWINBUILD"),
   ("defines", Val.strs ["OPENSSL_SYS_WIN"]),
   ("cflags", Val.str "/Gs0"),
   ("CFLAGS", Val.str "/O2"),
   ("ex_libs", Val.str "ws2_32.lib gdi32.lib")]

/-- Unified source graph of the Windows sample database. -/
def winSources : List (String × List String) :=
  [("libssl", []),
   ("apps/libapps.a", []),
   ("apps/openssl", []),
   ("libcrypto", ["crypto/cpuid.o"]),
   ("crypto/cpuid.o", ["crypto/x86_64cpuid.s"])]

/-- The Windows sample database. -/
def winDB : ConfigDB :=
  { unified_sources := winSources
    unified_generate := ["crypto/x86_64cpuid.s"]
    config := winConfig
    target := winTarget }

/-- The manifest the pipeline produces from `winDB` for `VC-WIN64A` in `asm`
mode. -/
def mWin : Manifest :=
  { libcrypto_srcs := ["generated-config/archs/VC-WIN64A/asm/crypto/x86_64cpuid.asm"]
    libssl_srcs := []
    apps_openssl_srcs := []
    defines := ["WINBUILD", "OPENSSL_SYS_WIN"]
    cflags := []
    libs := ["ws2_", "gdi3"]
    arch := "VC-WIN64A"
    asm := "asm" }

/-- A `shutil.which` oracle that finds every binary. -/
def whichAll : String → Bool := fun _ => true

/-- A `shutil.which` oracle that finds no binary. -/
def whichNone : String → Bool := fun _ => false

/-! ## Inversion and membership helpers -/

/-- Inversion of a successful manifest extraction: every component lookup
succeeded and the manifest is `buildManifest` of the components. -/
theorem mkManifest_inv {db : ConfigDB} {arch asmv : String} {m : Manifest}
    (h : mkManifest db arch asmv = some m) :
    ∃ ssl la ao lc d c l,
      get_sources db.unified_sources "libssl" = some ssl ∧
      get_sources db.unified_sources "apps/libapps.a" = some la ∧
      get_sources db.unified_sources "apps/openssl" = some ao ∧
      get_sources db.unified_sources "libcrypto" = some lc ∧
      mkDefines db.config db.target = some d ∧
      mkCflags (strStartsWith arch "VC-WIN") db.config db.target = some c ∧
      mkLibs db.target = some l ∧
      m = buildManifest db.unified_generate arch asmv ssl la ao lc d c l := by
  unfold mkManifest at h
  split at h
  · rename_i ssl la ao lc d c l hssl hla hao hlc hd hc hl
    exact ⟨ssl, la, ao, lc, d, c, l, hssl, hla, hao, hlc, hd, hc, hl,
      (Option.some.inj h).symm⟩
  · simp at h

/-- With an empty exclusion set, `processStrings` only applies the conditional
POSIX conversion. -/
theorem processStrings_nil_exclude (w p : Bool) (l : List String) :
    processStrings w [] p l = if p && w then l.map posixPath else l := by
  unfold processStrings
  cases hpw : p && w <;> simp [hpw]

/-- A generated source is listed (with its conditional rewrite applied) in the
generated component of `classifySrcs`. -/
theorem mem_classify_gen {w : Bool} {gen : List String} :
    ∀ {srcs : List String} {src : String}, src ∈ srcs → gen.contains src = true →
    (if w && (strEndsWith src ".s" || strEndsWith src ".S") then
        strDropRight src 2 ++ ".asm"
      else src) ∈ (classifySrcs w gen srcs).2 := by
  intro srcs
  induction srcs with
  | nil => intro src h _; cases h
  | cons a rest ih =>
    intro src hmem hgen
    rcases List.mem_cons.mp hmem with rfl | hmem2
    · simp only [classifySrcs, hgen]
      simp
    · simp only [classifySrcs]
      split
      · exact List.mem_cons_of_mem _ (ih hmem2 hgen)
      · exact ih hmem2 hgen

/-- The per-file build invocation for a generated source is in the
materialization effect trace. -/
theorem mem_materialize_run {mk base : String} {gsrcs : List String} {src : String}
    (h : src ∈ gsrcs) : Effect.run [mk, src] ∈ materializeEffects mk base gsrcs := by
  unfold materializeEffects
  rw [List.mem_flatten]
  exact ⟨_, List.mem_map_of_mem _ h, by simp⟩

/-- The copy of a generated source into the scoped tree is in the
materialization effect trace. -/
theorem mem_materialize_copy {mk base : String} {gsrcs : List String} {src : String}
    (h : src ∈ gsrcs) :
    Effect.copy src (pathJoin base (pathParent src)) ∈ materializeEffects mk base gsrcs := by
  unfold materializeEffects
  rw [List.mem_flatten]
  exact ⟨_, List.mem_map_of_mem _ h, by simp⟩

/-- Characterization of a successful `resolveObjs`: each object resolves, in
order, to the first element of its own entry in the unified source graph. -/
theorem resolveObjs_forall2 {u : List (String × List String)} :
    ∀ {objs srcs : List String}, resolveObjs u objs = some srcs →
    List.Forall₂ (fun obj s => ∃ l, dget u obj = some l ∧ l.head? = some s) objs srcs := by
  intro objs
  induction objs with
  | nil =>
    intro srcs h
    simp only [resolveObjs, Option.some.injEq] at h
    subst h
    exact List.Forall₂.nil
  | cons o rest ih =>
    intro srcs h
    unfold resolveObjs at h
    split at h
    · rename_i s tail h1 h2
      obtain rfl := Option.some.inj h
      obtain ⟨l, hd, hh⟩ := Option.bind_eq_some.mp h1
      exact List.Forall₂.cons ⟨l, hd, hh⟩ (ih h2)
    · simp at h

/-! ## Claim theorems -/

/-- C2: the claim says an external-libs entry ending in `.lib` has that suffix
removed, so `ws2_32.lib` would yield `ws2_32`; the code (line 167,
`lib = lib[:4]`) instead keeps the first four characters, yielding `ws2_`.
This evaluates the embedded code at the failing input. -/
theorem ex_libs_lib_suffix_truncation_eval :
    mkLibs [("ex_libs", Val.str "ws2_32.lib")] = some ["ws2_"]
    ∧ libName "ws2_32.lib" = "ws2_"
    ∧ ("ws2_" : String) ≠ "ws2_32" := by decide

/-- C3: when the platform-appropriate build driver (`nmake` for `VC-WIN`
archs, `make` otherwise) is not discoverable, `gen_arch` returns normally with
an empty effect trace: no process runs, nothing is created, no error is
raised, and the driver loop proceeds to the next pair. -/
theorem missing_build_driver_skips_pair (which : String → Bool) (db : ConfigDB)
    (arch asmv : String)
    (h : which (if strStartsWith arch "VC-WIN" then "nmake" else "make") = false) :
    gen_arch which db arch asmv = some [] := by
  simp [gen_arch, makeTool, h]

/-- Witness for C3 at a concrete pair with an empty-path `which` oracle. -/
theorem missing_build_driver_skips_pair_witness :
    whichNone (if strStartsWith "linux-x86_64" "VC-WIN" then "nmake" else "make") = false
    ∧ gen_arch whichNone sampleDB "linux-x86_64" "asm" = some [] :=
  ⟨rfl, missing_build_driver_skips_pair whichNone sampleDB "linux-x86_64" "asm" rfl⟩

/-- C4: the manifest text is a deterministic function of the decoded
configuration database and the (arch, mode) pair - two runs over equal inputs
produce byte-identical text. -/
theorem manifest_text_deterministic (db1 db2 : ConfigDB) (arch asmv : String)
    (h : db1 = db2) :
    (mkManifest db1 arch asmv).map renderManifest
      = (mkManifest db2 arch asmv).map renderManifest := by
  rw [h]

/-- Witness for C4: two runs over the sample database agree. -/
theorem manifest_text_deterministic_witness :
    sampleDB = sampleDB
    ∧ (mkManifest sampleDB "linux-x86_64" "asm").map renderManifest
        = (mkManifest sampleDB "linux-x86_64" "asm").map renderManifest :=
  ⟨rfl, manifest_text_deterministic sampleDB sampleDB "linux-x86_64" "asm" rfl⟩

/-- C9: a target's resolved source list follows one level of object-to-source
indirection (each object contributes the first element of its own entry, in
order), and the CLI source list placed in the manifest is the CLI binary's own
resolved sources concatenated with the separately listed libapps sources. -/
theorem sources_one_level_indirection_and_cli_concat
    (db : ConfigDB) (arch asmv t : String) (m : Manifest)
    (objs srcs apps libapps : List String)
    (hm : mkManifest db arch asmv = some m)
    (ht : dget db.unified_sources t = some objs)
    (hs : get_sources db.unified_sources t = some srcs)
    (ha : get_sources db.unified_sources "apps/openssl" = some apps)
    (hl : get_sources db.unified_sources "apps/libapps.a" = some libapps) :
    List.Forall₂ (fun obj s => ∃ l, dget db.unified_sources obj = some l ∧ l.head? = some s)
      objs srcs
    ∧ m.apps_openssl_srcs
        = processStrings (strStartsWith arch "VC-WIN") [] true (apps ++ libapps) := by
  constructor
  · have hr : resolveObjs db.unified_sources objs = some srcs := by
      unfold get_sources at hs
      rw [ht] at hs
      exact hs
    exact resolveObjs_forall2 hr
  · obtain ⟨ssl, la, ao, lc, d, c, l, hssl, hla, hao, hlc, hd, hc, hlb, hm2⟩ :=
      mkManifest_inv hm
    rw [hao] at ha
    rw [hla] at hl
    obtain rfl := Option.some.inj ha
    obtain rfl := Option.some.inj hl
    subst hm2
    rfl

/-- A successful `mkDefines` implies every key it consults is present. -/
theorem mkDefines_some_keys {c t : Dict} {d : List String}
    (h : mkDefines c t = some d) :
    dget t "lib_cppflags" ≠ none ∧ dget c "defines" ≠ none
    ∧ dget c "lib_defines" ≠ none ∧ dget t "defines" ≠ none := by
  unfold mkDefines at h
  split at h
  · rename_i lcpp cdef ldef tdef h1 h2 h3 h4
    refine ⟨?_, ?_, ?_, ?_⟩ <;> intro hn
    · simp [getStr, hn] at h1
    · simp [getStrs, hn] at h2
    · simp [getStrs, hn] at h3
    · simp [getStrs, hn] at h4
  · simp at h

/-- A successful non-Windows `mkCflags` implies every key it consults is
present. -/
theorem mkCflags_some_keys {c t : Dict} {l : List String}
    (h : mkCflags false c t = some l) :
    dget c "cflags" ≠ none ∧ dget c "CFLAGS" ≠ none
    ∧ dget t "cflags" ≠ none ∧ dget t "CFLAGS" ≠ none := by
  unfold mkCflags at h
  simp only [Bool.false_eq_true, if_false] at h
  split at h
  · rename_i a b cc dd h1 h2 h3 h4
    refine ⟨?_, ?_, ?_, ?_⟩ <;> intro hn
    · simp [getStrs, hn] at h1
    · simp [getStrs, hn] at h2
    · simp [getStr, hn] at h3
    · simp [getStr, hn] at h4
  · simp at h

/-- C5: on a Windows-family architecture the emitted cflags list is empty; on
any other architecture the cflags are assembled from the four flag-list
sources (global `cflags` list, global `CFLAGS` list, target `cflags` string,
target `CFLAGS` string), splitting every space-separated entry, and the
manifest holds that assembly after the fixed exclusion filtering. -/
theorem cflags_empty_on_windows_assembled_otherwise
    (db : ConfigDB) (arch asmv : String) (m : Manifest)
    (ccf cCF : List String) (tcf tCF : String)
    (hm : mkManifest db arch asmv = some m)
    (h1 : getStrs db.config "cflags" = some ccf)
    (h2 : getStrs db.config "CFLAGS" = some cCF)
    (h3 : getStr db.target "cflags" = some tcf)
    (h4 : getStr db.target "CFLAGS" = some tCF) :
    (strStartsWith arch "VC-WIN" = true → m.cflags = [])
    ∧ (strStartsWith arch "VC-WIN" = false →
        mkCflags false db.config db.target
          = some ((ccf.map pySplit).flatten ++ (cCF.map pySplit).flatten
              ++ pySplit tcf ++ pySplit tCF)
        ∧ m.cflags
          = processStrings false ["-Wall", "-O3", "-pthread"] false
              ((ccf.map pySplit).flatten ++ (cCF.map pySplit).flatten
                ++ pySplit tcf ++ pySplit tCF)) := by
  obtain ⟨ssl, la, ao, lc, d, c, l, _, _, _, _, _, hc, _, hm2⟩ := mkManifest_inv hm
  constructor
  · intro hw
    rw [hw] at hc
    have hcnil : c = [] := by
      simp [mkCflags] at hc
      exact hc
    subst hcnil
    subst hm2
    simp [buildManifest, processStrings]
  · intro hw
    have hasm : mkCflags false db.config db.target
        = some ((ccf.map pySplit).flatten ++ (cCF.map pySplit).flatten
            ++ pySplit tcf ++ pySplit tCF) := by
      simp [mkCflags, h1, h2, h3, h4]
    refine ⟨hasm, ?_⟩
    rw [hw] at hc
    rw [hasm] at hc
    obtain rfl := Option.some.inj hc
    subst hm2
    simp [buildManifest, hw]

/-- C6 counterexample: the claim reads `lib_cppflags` handling as stripping a
leading `-D` prefix; on the entry `-DA-DB` the code's `replace('-D', '')`
yields `AB`, while prefix-stripping (modelled by `specDefines`) would yield
`A-DB`, so the emitted define list differs from the claim's prediction. -/
theorem defines_dash_d_strip_is_replace_all_cex :
    getStr sampleDB.target "lib_cppflags" = some "-DOPENSSL_BUILDING -DA-DB"
    ∧ (mkManifest sampleDB "linux-x86_64" "asm").map Manifest.defines
        = some ["OPENSSL_USE_APPLINK", "OPENSSL_BUILDING", "AB", "OPENSSL_PIC"]
    ∧ specDefines ["OPENSSL_USE_APPLINK"] "-DOPENSSL_BUILDING -DA-DB"
        ["OPENSSL_PIC"] ["NDEBUG"]
        = ["OPENSSL_USE_APPLINK", "OPENSSL_BUILDING", "A-DB", "OPENSSL_PIC"]
    ∧ (["OPENSSL_USE_APPLINK", "OPENSSL_BUILDING", "AB", "OPENSSL_PIC"] : List String)
        ≠ ["OPENSSL_USE_APPLINK", "OPENSSL_BUILDING", "A-DB", "OPENSSL_PIC"] := by
  decide

/-- C6 (amended): the manifest define list is the fixed-order concatenation of
the global defines, the split `lib_cppflags` entries with every occurrence of
the substring `-D` removed (not only a leading prefix), the global
`lib_defines`, and the target defines, with entries equal to `NDEBUG` removed
and the remaining order preserved. -/
theorem defines_concatenation_with_replace_all
    (db : ConfigDB) (arch asmv : String) (m : Manifest)
    (lcpp : String) (cdef ldef tdef : List String)
    (hm : mkManifest db arch asmv = some m)
    (h1 : getStr db.target "lib_cppflags" = some lcpp)
    (h2 : getStrs db.config "defines" = some cdef)
    (h3 : getStrs db.config "lib_defines" = some ldef)
    (h4 : getStrs db.target "defines" = some tdef) :
    m.defines = (cdef ++ (pySplit lcpp).map pyReplaceDashD ++ ldef ++ tdef).filter
      (fun i => decide (i ∉ (["NDEBUG"] : List String))) := by
  obtain ⟨ssl, la, ao, lc, d, c, l, _, _, _, _, hd, _, _, hm2⟩ := mkManifest_inv hm
  have hd2 : mkDefines db.config db.target
      = some (cdef ++ (pySplit lcpp).map pyReplaceDashD ++ ldef ++ tdef) := by
    simp [mkDefines, h1, h2, h3, h4]
  rw [hd] at hd2
  obtain rfl := Option.some.inj hd2
  subst hm2
  simp [buildManifest, processStrings]

/-- C7: before rendering, every cflags entry equal to `-Wall`, `-O3` or
`-pthread` and every libs entry equal to `-pthread` is unconditionally
excluded, and all other entries are kept unchanged in order (the manifest
lists are exactly the assembled lists filtered by the fixed exclusion sets). -/
theorem nuisance_entries_filtered
    (db : ConfigDB) (arch asmv : String) (m : Manifest) (c l : List String)
    (hm : mkManifest db arch asmv = some m)
    (hc : mkCflags (strStartsWith arch "VC-WIN") db.config db.target = some c)
    (hl : mkLibs db.target = some l) :
    m.cflags = c.filter (fun i => decide (i ∉ (["-Wall", "-O3", "-pthread"] : List String)))
    ∧ m.libs = l.filter (fun i => decide (i ∉ (["-pthread"] : List String))) := by
  obtain ⟨ssl, la, ao, lc, d, c2, l2, _, _, _, _, _, hc2, hl2, hm2⟩ := mkManifest_inv hm
  rw [hc] at hc2
  obtain rfl := Option.some.inj hc2
  rw [hl] at hl2
  obtain rfl := Option.some.inj hl2
  subst hm2
  constructor <;> simp [buildManifest, processStrings]

/-- C8: on a Windows-family architecture every entry of the three manifest
source lists passes through the POSIX path conversion; on any other
architecture the entries are written unchanged. -/
theorem win_source_paths_posix
    (db : ConfigDB) (arch asmv : String) (m : Manifest)
    (ssl la ao lc : List String)
    (hm : mkManifest db arch asmv = some m)
    (hssl : get_sources db.unified_sources "libssl" = some ssl)
    (hla : get_sources db.unified_sources "apps/libapps.a" = some la)
    (hao : get_sources db.unified_sources "apps/openssl" = some ao)
    (hlc : get_sources db.unified_sources "libcrypto" = some lc) :
    (strStartsWith arch "VC-WIN" = true →
      m.libcrypto_srcs
        = ((classifySrcs true db.unified_generate lc).1
            ++ (classifySrcs true db.unified_generate lc).2.map
                (fun src => genPfx arch asmv ++ src)).map posixPath
      ∧ m.libssl_srcs = ssl.map posixPath
      ∧ m.apps_openssl_srcs = (ao ++ la).map posixPath)
    ∧ (strStartsWith arch "VC-WIN" = false →
      m.libcrypto_srcs
        = (classifySrcs false db.unified_generate lc).1
            ++ (classifySrcs false db.unified_generate lc).2.map
                (fun src => genPfx arch asmv ++ src)
      ∧ m.libssl_srcs = ssl
      ∧ m.apps_openssl_srcs = ao ++ la) := by
  obtain ⟨ssl2, la2, ao2, lc2, d, c, l, hssl2, hla2, hao2, hlc2, _, _, _, hm2⟩ :=
    mkManifest_inv hm
  rw [hssl2] at hssl
  obtain rfl := Option.some.inj hssl
  rw [hla2] at hla
  obtain rfl := Option.some.inj hla
  rw [hao2] at hao
  obtain rfl := Option.some.inj hao
  rw [hlc2] at hlc
  obtain rfl := Option.some.inj hlc
  subst hm2
  constructor <;> intro hw <;>
    refine ⟨?_, ?_, ?_⟩ <;>
    simp [buildManifest, hw, processStrings_nil_exclude]

/-- C10: `ex_libs` is the one optional key at the extraction interface - when
it is absent the emitted libs list is empty and no error is raised (shown via
`db1`) - while the absence of any other consulted config/target key makes the
whole extraction fatal (shown via `db2` and the consulted-key lists). -/
theorem ex_libs_only_optional_key
    (db1 db2 : ConfigDB) (arch asmv k : String) (m1 : Manifest)
    (ha : dget db1.target "ex_libs" = none)
    (hm1 : mkManifest db1 arch asmv = some m1)
    (hk : (k ∈ consultedConfigKeys (strStartsWith arch "VC-WIN")
            ∧ dget db2.config k = none)
        ∨ (k ∈ consultedTargetKeys (strStartsWith arch "VC-WIN")
            ∧ dget db2.target k = none)) :
    mkLibs db1.target = some []
    ∧ m1.libs = []
    ∧ mkManifest db2 arch asmv = none := by
  have hlibs : mkLibs db1.target = some [] := by simp [mkLibs, ha]
  refine ⟨hlibs, ?_, ?_⟩
  · obtain ⟨ssl, la, ao, lc, d, c, l, _, _, _, _, _, _, hlb, hm2⟩ := mkManifest_inv hm1
    rw [hlibs] at hlb
    obtain rfl := Option.some.inj hlb
    subst hm2
    simp [buildManifest, processStrings]
  · cases hmm : mkManifest db2 arch asmv with
    | none => rfl
    | some m2 =>
      exfalso
      obtain ⟨ssl, la, ao, lc, d, c, l, _, _, _, _, hd, hc, _, _⟩ := mkManifest_inv hmm
      have hdk := mkDefines_some_keys hd
      cases hw : strStartsWith arch "VC-WIN" with
      | false =>
        rw [hw] at hc
        have hck := mkCflags_some_keys hc
        rcases hk with ⟨hkmem, hnone⟩ | ⟨hkmem, hnone⟩
        · simp [consultedConfigKeys, hw] at hkmem
          rcases hkmem with rfl | rfl | rfl | rfl
          · exact hdk.2.1 hnone
          · exact hdk.2.2.1 hnone
          · exact hck.1 hnone
          · exact hck.2.1 hnone
        · simp [consultedTargetKeys, hw] at hkmem
          rcases hkmem with rfl | rfl | rfl | rfl
          · exact hdk.1 hnone
          · exact hdk.2.2.2 hnone
          · exact hck.2.2.1 hnone
          · exact hck.2.2.2 hnone
      | true =>
        rcases hk with ⟨hkmem, hnone⟩ | ⟨hkmem, hnone⟩
        · simp [consultedConfigKeys, hw] at hkmem
          rcases hkmem with rfl | rfl
          · exact hdk.2.1 hnone
          · exact hdk.2.2.1 hnone
        · simp [consultedTargetKeys, hw] at hkmem
          rcases hkmem with rfl | rfl
          · exact hdk.1 hnone
          · exact hdk.2.2.2 hnone

/-- C1 counterexample: for the Windows-family arch `VC-WIN64A` with generated
source `crypto/x86_64cpuid.s`, the materialization trace builds and copies the
rewritten `.asm` name and never touches the original `.s` name, contradicting
the claim that the build invocation and copy still use the `.s`-named file;
the manifest does reference the rewritten name. -/
theorem win_generated_src_materialized_as_asm_cex :
    ((gen_arch whichAll winDB "VC-WIN64A" "asm").getD []).contains
        (Effect.run ["nmake", "crypto/x86_64cpuid.asm"]) = true
    ∧ ((gen_arch whichAll winDB "VC-WIN64A" "asm").getD []).contains
        (Effect.copy "crypto/x86_64cpuid.asm"
          "generated-config/archs/VC-WIN64A/asm/crypto") = true
    ∧ ((gen_arch whichAll winDB "VC-WIN64A" "asm").getD []).contains
        (Effect.run ["nmake", "crypto/x86_64cpuid.s"]) = false
    ∧ ((gen_arch whichAll winDB "VC-WIN64A" "asm").getD []).contains
        (Effect.copy "crypto/x86_64cpuid.s"
          "generated-config/archs/VC-WIN64A/asm/crypto") = false
    ∧ (mkManifest winDB "VC-WIN64A" "asm").map Manifest.libcrypto_srcs
        = some ["generated-config/archs/VC-WIN64A/asm/crypto/x86_64cpuid.asm"] := by
  decide

/-- C1 (amended): on a Windows-family architecture, a generated primary-library
source ending in `.s` or `.S` has its extension rewritten to `.asm` before the
materialization loop, so both the per-file build invocation and the copy into
the scoped tree use the rewritten `.asm` name, and the manifest references the
rewritten name under the generated-config prefix. -/
theorem win_asm_rewrite_used_by_materialization_and_manifest
    (which : String → Bool) (db : ConfigDB) (arch asmv src : String)
    (m : Manifest) (lc : List String)
    (hw : strStartsWith arch "VC-WIN" = true)
    (hwhich : which "nmake" = true)
    (hlc : get_sources db.unified_sources "libcrypto" = some lc)
    (hmem : src ∈ lc)
    (hgen : db.unified_generate.contains src = true)
    (hext : strEndsWith src ".s" = true ∨ strEndsWith src ".S" = true)
    (hm : mkManifest db arch asmv = some m) :
    Effect.run ["nmake", strDropRight src 2 ++ ".asm"]
        ∈ (gen_arch which db arch asmv).getD []
    ∧ Effect.copy (strDropRight src 2 ++ ".asm")
        (pathJoin (baseDir arch asmv) (pathParent (strDropRight src 2 ++ ".asm")))
        ∈ (gen_arch which db arch asmv).getD []
    ∧ posixPath (genPfx arch asmv ++ (strDropRight src 2 ++ ".asm"))
        ∈ m.libcrypto_srcs := by
  have hmk : makeTool arch = "nmake" := by simp [makeTool, hw]
  have hga : gen_arch which db arch asmv
      = some (setupEffects "nmake" arch asmv
        ++ materializeEffects "nmake" (baseDir arch asmv)
             (classifySrcs true db.unified_generate lc).2
        ++ [Effect.write (baseDir arch asmv ++ "/meson.build") (renderManifest m)]
        ++ cleanupEffects "nmake") := by
    unfold gen_arch
    rw [hmk, hwhich, hlc, hm, hw]
    rfl
  have hr : (strDropRight src 2 ++ ".asm") ∈ (classifySrcs true db.unified_generate lc).2 := by
    have hcl := mem_classify_gen (w := true) hmem hgen
    rcases hext with h | h <;> simpa [h] using hcl
  refine ⟨?_, ?_, ?_⟩
  · rw [hga]
    exact List.mem_append_left _ (List.mem_append_left _
      (List.mem_append_right _ (mem_materialize_run hr)))
  · rw [hga]
    exact List.mem_append_left _ (List.mem_append_left _
      (List.mem_append_right _ (mem_materialize_copy hr)))
  · obtain ⟨ssl, la, ao, lc2, d, c, l, _, _, _, hlc2, _, _, _, hm2⟩ := mkManifest_inv hm
    rw [hlc2] at hlc
    obtain rfl := Option.some.inj hlc
    subst hm2
    simp only [buildManifest, hw, processStrings_nil_exclude, Bool.and_true,
      Bool.true_and, if_true]
    exact List.mem_map_of_mem _ (List.mem_append_right _ (List.mem_map_of_mem _ hr))

/-- Witness for C5 at the two concrete databases: the Windows manifest has
empty cflags, and the Linux assembly equals the four-source concatenation. -/
theorem cflags_empty_on_windows_assembled_otherwise_witness :
    mWin.cflags = []
    ∧ mkCflags false sampleDB.config sampleDB.target
        = some (((["-Wall -O3"] : List String).map pySplit).flatten
            ++ ((["-O3"] : List String).map pySplit).flatten
            ++ pySplit "-pthread -g" ++ pySplit "-O2") :=
  ⟨(cflags_empty_on_windows_assembled_otherwise winDB "VC-WIN64A" "asm" mWin
      ["/W3"] [] "/Gs0" "/O2" (by decide) (by decide) (by decide) (by decide)
      (by decide)).1 (by decide),
   ((cflags_empty_on_windows_assembled_otherwise sampleDB "linux-x86_64" "asm" mSample
      ["-Wall -O3"] ["-O3"] "-pthread -g" "-O2" (by decide) (by decide) (by decide)
      (by decide) (by decide)).2 (by decide)).1⟩

/-- Witness for the amended C6 at the sample database. -/
theorem defines_concatenation_with_replace_all_witness :
    mSample.defines
      = ((["OPENSSL_USE_APPLINK"] : List String)
          ++ (pySplit "-DOPENSSL_BUILDING -DA-DB").map pyReplaceDashD
          ++ ["OPENSSL_PIC"] ++ ["NDEBUG"]).filter
          (fun i => decide (i ∉ (["NDEBUG"] : List String))) :=
  defines_concatenation_with_replace_all sampleDB "linux-x86_64" "asm" mSample
    "-DOPENSSL_BUILDING -DA-DB" ["OPENSSL_USE_APPLINK"] ["OPENSSL_PIC"] ["NDEBUG"]
    (by decide) (by decide) (by decide) (by decide) (by decide)

/-- Witness for C7 at the sample database, whose legacy flags report `-Wall`,
`-O3` and `-pthread`. -/
theorem nuisance_entries_filtered_witness :
    mSample.cflags
      = (["-Wall", "-O3", "-O3", "-pthread", "-g", "-O2"] : List String).filter
          (fun i => decide (i ∉ (["-Wall", "-O3", "-pthread"] : List String)))
    ∧ mSample.libs
      = (["dl", "ws2_", "-pthread"] : List String).filter
          (fun i => decide (i ∉ (["-pthread"] : List String))) :=
  nuisance_entries_filtered sampleDB "linux-x86_64" "asm" mSample
    ["-Wall", "-O3", "-O3", "-pthread", "-g", "-O2"] ["dl", "ws2_", "-pthread"]
    (by decide) (by decide) (by decide)

/-- Witness for C8 at the Windows database. -/
theorem win_source_paths_posix_witness :
    mWin.libcrypto_srcs
      = ["generated-config/archs/VC-WIN64A/asm/crypto/x86_64cpuid.asm"]
    ∧ mWin.libssl_srcs = []
    ∧ mWin.apps_openssl_srcs = [] := by
  have h := (win_source_paths_posix winDB "VC-WIN64A" "asm" mWin
    [] [] [] ["crypto/x86_64cpuid.s"]
    (by decide) (by decide) (by decide) (by decide) (by decide)).1 (by decide)
  exact ⟨h.1.trans (by decide), h.2.1.trans (by decide), h.2.2.trans (by decide)⟩

/-- Witness for C9 at the sample database's `libcrypto` target. -/
theorem sources_one_level_indirection_and_cli_concat_witness :
    List.Forall₂
      (fun obj s => ∃ l, dget sampleDB.unified_sources obj = some l ∧ l.head? = some s)
      ["crypto/aes.o", "crypto/cpuid.o"] ["crypto/aes.c", "crypto/x86_64cpuid.s"]
    ∧ mSample.apps_openssl_srcs = ["apps/openssl.c", "apps/lib/app_x.c"] := by
  have h := sources_one_level_indirection_and_cli_concat sampleDB "linux-x86_64" "asm"
    "libcrypto" mSample ["crypto/aes.o", "crypto/cpuid.o"]
    ["crypto/aes.c", "crypto/x86_64cpuid.s"] ["apps/openssl.c"] ["apps/lib/app_x.c"]
    (by decide) (by decide) (by decide) (by decide) (by decide)
  exact ⟨h.1, h.2.trans (by decide)⟩

/-- Witness for C10: removing `ex_libs` yields an empty libs list with no
error, while removing the consulted `cflags` config key aborts extraction. -/
theorem ex_libs_only_optional_key_witness :
    mkLibs sampleDBNoEx.target = some []
    ∧ mSampleNoEx.libs = []
    ∧ mkManifest sampleDBNoCflags "linux-x86_64" "asm" = none :=
  ex_libs_only_optional_key sampleDBNoEx sampleDBNoCflags "linux-x86_64" "asm" "cflags"
    mSampleNoEx (by decide) (by decide) (Or.inl ⟨by decide, by decide⟩)

/-- Witness for the amended C1 at the Windows database: build invocation, copy
and manifest entry all use the rewritten `.asm` name. -/
theorem win_asm_rewrite_used_by_materialization_and_manifest_witness :
    Effect.run ["nmake", "crypto/x86_64cpuid.asm"]
        ∈ (gen_arch whichAll winDB "VC-WIN64A" "asm").getD []
    ∧ Effect.copy "crypto/x86_64cpuid.asm" "generated-config/archs/VC-WIN64A/asm/crypto"
        ∈ (gen_arch whichAll winDB "VC-WIN64A" "asm").getD []
    ∧ "generated-config/archs/VC-WIN64A/asm/crypto/x86_64cpuid.asm"
        ∈ mWin.libcrypto_srcs := by
  have h := win_asm_rewrite_used_by_materialization_and_manifest whichAll winDB
    "VC-WIN64A" "asm" "crypto/x86_64cpuid.s" mWin ["crypto/x86_64cpuid.s"]
    (by decide) rfl (by decide) (by decide) (by decide) (Or.inl (by decide)) (by decide)
  have e1 : strDropRight "crypto/x86_64cpuid.s" 2 ++ ".asm" = "crypto/x86_64cpuid.asm" := by
    decide
  have e2 : pathJoin (baseDir "VC-WIN64A" "asm")
      (pathParent (strDropRight "crypto/x86_64cpuid.s" 2 ++ ".asm"))
      = "generated-config/archs/VC-WIN64A/asm/crypto" := by decide
  have e3 : posixPath (genPfx "VC-WIN64A" "asm" ++ (strDropRight "crypto/x86_64cpuid.s" 2 ++ ".asm"))
      = "generated-config/archs/VC-WIN64A/asm/crypto/x86_64cpuid.asm" := by decide
  refine ⟨?_, ?_, ?_⟩
  · rw [← e1]
    exact h.1
  · rw [← e1, ← e2]
    exact h.2.1
  · rw [← e3]
    exact h.2.2
